import Mathlib

/-!
Verification development for the Raven conversation-scraping system.

This file gives a shallow embedding, in Lean, of the pure computational core
of the repository: the title/insight generation of
`services/insight_extractor.py`, the multi-strategy conversation extraction of
`services/content_extractor.py`, and the link-validation, per-link pipeline,
and background-worker logic of `app.py`.  Effectful boundaries (network
fetches, page rendering, file writes, the LLM call) are modelled as explicit
inputs: a strategy's outcome is the message list it produced (or `none` when
it raised), the network probe's outcome is an abstract response value, and so
on.  All string processing is embedded faithfully over `List Char`, including
Python's substring (`in`), `str.split()`, `str.isalnum()`, `str.strip(...)`
and the concrete regular expressions used by the source (which are simple
literal-prefix-plus-word-capture patterns).
-/

namespace Raven

/-! ### String primitives (Python semantics, executable over `List Char`) -/

/-- The apostrophe character, used inside several keyword lists. -/
def apos : Char := Char.ofNat 39

/-- The apostrophe as a one-character string. -/
def apostr : String := String.mk [apos]

/-- Python `needle in haystack` on character lists: `pat` occurs as a
contiguous infix of `s`. -/
def occursIn (pat : List Char) : List Char → Bool
  | [] => pat.isEmpty
  | c :: cs => pat.isPrefixOf (c :: cs) || occursIn pat cs

/-- Python `needle in haystack` for strings (substring containment). -/
def strContains (needle haystack : String) : Bool :=
  occursIn needle.toList haystack.toList

/-- Python `str.lower()` (ASCII case folding, which is all the source needs). -/
def pyLower (s : String) : String := String.mk (s.toList.map Char.toLower)

/-- Number of positions of `s` at which `pat` starts (used to talk about
occurrence counts of a keyword in a text). -/
def countOcc (pat : List Char) : List Char → Nat
  | [] => 0
  | c :: cs => (if pat.isPrefixOf (c :: cs) then 1 else 0) + countOcc pat cs

/-- Python `str.startswith(head)`. -/
def pyStartsWith (s head : String) : Bool := head.toList.isPrefixOf s.toList

/-- Helper for splitting on a separator character, keeping empty segments,
like Python `str.split('/')`. -/
def splitOnCharAux (sep : Char) : List Char → List Char → List (List Char)
  | [], acc => [acc.reverse]
  | c :: cs, acc =>
    if c == sep then acc.reverse :: splitOnCharAux sep cs []
    else splitOnCharAux sep cs (c :: acc)

/-- Python `s.split(sep)` for a single-character separator. -/
def splitOnChar (sep : Char) (s : String) : List String :=
  (splitOnCharAux sep s.toList []).map String.mk

/-- Python `url.split('/')[-1]`. -/
def url_last_segment (url : String) : String := (splitOnChar '/' url).getLastD ""

/-- Helper for Python `str.split()`: split on whitespace runs, dropping
empty segments. -/
def splitWSAux : List Char → List Char → List (List Char)
  | [], acc => if acc.isEmpty then [] else [acc.reverse]
  | c :: cs, acc =>
    if c.isWhitespace then
      if acc.isEmpty then splitWSAux cs [] else acc.reverse :: splitWSAux cs []
    else splitWSAux cs (c :: acc)

/-- Python `str.split()` with no argument. -/
def pySplit (s : String) : List String := (splitWSAux s.toList []).map String.mk

/-- Python `str.isalnum()`: non-empty and all characters alphanumeric. -/
def pyIsAlnum (s : String) : Bool := !s.isEmpty && s.toList.all Char.isAlphanum

/-- Python `str.strip(chars)`: remove leading and trailing characters drawn
from `chars`. -/
def stripChars (chars : List Char) (cs : List Char) : List Char :=
  ((cs.dropWhile (chars.contains ·)).reverse.dropWhile (chars.contains ·)).reverse

/-- A regex word character, `\w` (ASCII fragment): alphanumeric or `_`. -/
def wordChar (c : Char) : Bool := c.isAlphanum || c == '_'

/-- `re.search` for the patterns the source uses, which all have the shape
`<literal> (\w+)`: find the first position where the literal occurs followed
by at least one word character, and return the maximal word-character run
after it (the capture group). -/
def searchCapture (pat : List Char) : List Char → Option (List Char)
  | [] => none
  | c :: cs =>
    if pat.isPrefixOf (c :: cs) then
      let w := ((c :: cs).drop pat.length).takeWhile wordChar
      if w.isEmpty then searchCapture pat cs else some w
    else searchCapture pat cs

/-! ### Data model -/

/-- One extracted conversation message
(`{"role": ..., "content": ..., "extraction_method": ...}` in the source). -/
structure Message where
  role : String
  content : String
  extraction_method : String
deriving DecidableEq

/-- The `metadata` dict built by `ContentExtractor.extract_conversation`. -/
structure TranscriptMetadata where
  total_messages : Nat
  user_messages : Nat
  assistant_messages : Nat
  extraction_method : String
deriving DecidableEq

/-- The dict returned by `ContentExtractor.extract_conversation`. -/
structure Transcript where
  url : String
  messages : List Message
  metadata : TranscriptMetadata
deriving DecidableEq

/-- The dict returned by `InsightExtractor._generate_fallback_insights`. -/
structure Insight where
  user_name : Option String
  user_background : String
  main_topic : String
  problem_described : String
  solution_provided : String
  tags : List String
  sentiment : String
  created_at : String
deriving DecidableEq

/-! ### InsightExtractor (`services/insight_extractor.py`) -/

/-- The `name_patterns` regex list of `generate_title` and
`_generate_fallback_insights`: each is a literal followed by `(\w+)`. -/
def name_patterns : List (List Char) :=
  ["my name is ".toList,
   ("i" ++ apostr ++ "m ").toList,
   "i am ".toList,
   "call me ".toList]

/-- Scan the name-declaration patterns, first match wins, returning the
captured word (`user_name` extraction shared by title and fallback insight). -/
def find_name (lowered : List Char) : Option String :=
  (name_patterns.findSome? (fun pat => searchCapture pat lowered)).map String.mk

/-- `InsightExtractor.generate_title`.  `now` stands for
`datetime.now().strftime('%Y%m%d_%H%M%S')`, used only on the
no-user-message / empty-title paths. -/
def generate_title (conversation_data : List Message) (now : String) : String :=
  match (conversation_data.find? (fun m => m.role == "user")).map Message.content with
  | none => "conversation_" ++ now
  | some first_user_msg =>
    if first_user_msg = "" then "conversation_" ++ now
    else
      let user_name := (find_name (pyLower first_user_msg).toList).getD "user"
      let words := (pySplit first_user_msg).take 5
      let summary := String.intercalate "_"
        ((words.filter pyIsAlnum).map
          (fun w => String.mk (stripChars ".,!?".toList (pyLower w).toList)))
      let title := user_name ++ "_" ++ summary
      let cleaned := String.mk ((title.toList.filter (fun c => wordChar c || c == '-')).take 50)
      if cleaned = "" then "conversation_" ++ now else cleaned

/-- `positive_words` of `_generate_fallback_insights`. -/
def positive_words : List String := ["good", "great", "excellent", "thank", "helpful", "amazing"]

/-- `negative_words` of `_generate_fallback_insights`. -/
def negative_words : List String := ["bad", "terrible", "awful", "problem", "issue", "error"]

/-- `InsightExtractor._generate_fallback_insights`.  `now` stands for
`datetime.now().isoformat()`. -/
def generate_fallback_insights (conversation_data : List Message) (now : String) : Insight :=
  let user_messages := (conversation_data.filter (fun m => m.role == "user")).map Message.content
  let assistant_messages :=
    (conversation_data.filter (fun m => m.role == "assistant")).map Message.content
  let user_name : Option String :=
    match user_messages with
    | [] => none
    | first :: _ => find_name (pyLower first).toList
  let main_topic : String :=
    match user_messages with
    | [] => "General conversation"
    | first :: _ => String.intercalate " " ((pySplit first).take 5)
  let all_text := pyLower (String.intercalate " " (user_messages ++ assistant_messages))
  let pos_count := (positive_words.filter (fun w => strContains w all_text)).length
  let neg_count := (negative_words.filter (fun w => strContains w all_text)).length
  let sentiment :=
    if pos_count > neg_count then "positive"
    else if neg_count > pos_count then "negative"
    else "neutral"
  { user_name := user_name
    user_background := "Not specified"
    main_topic := main_topic
    problem_described := user_messages.headD "No problem specified"
    solution_provided := assistant_messages.headD "No solution provided"
    tags := ["conversation", "chat"]
    sentiment := sentiment
    created_at := now }

/-- How many distinct words of `words` occur (as substrings) in `text`:
each listed word contributes at most once, however often it occurs. -/
def distinct_words_present (words : List String) (text : String) : Nat :=
  words.countP (fun w => strContains w text)

/-- Sentiment of the fallback insight as the amended claim states it:
the number of distinct positive-list words present in the lower-cased
concatenation of all message text is compared against the number of distinct
negative-list words present; majority wins, tie gives neutral. -/
def fallback_sentiment_characterisation (conversation_data : List Message) : String :=
  let user_messages := (conversation_data.filter (fun m => m.role == "user")).map Message.content
  let assistant_messages :=
    (conversation_data.filter (fun m => m.role == "assistant")).map Message.content
  let all_text := pyLower (String.intercalate " " (user_messages ++ assistant_messages))
  let p := distinct_words_present positive_words all_text
  let n := distinct_words_present negative_words all_text
  if p > n then "positive" else if n > p then "negative" else "neutral"

/-! ### ContentExtractor (`services/content_extractor.py`)

A rendered page is modelled by what each extraction strategy produced on it:
`none` when the strategy raised, `some msgs` when it returned the message
list `msgs`.  Everything downstream of the strategies
(`_validate_conversation_structure`, the strategy loop, the error-banner
filter, and the metadata construction) is embedded directly. -/

/-- The `error_patterns` list of `extract_conversation`. -/
def error_patterns : List String :=
  ["can" ++ apostr ++ "t load shared conversation",
   "return to chatgpt",
   "unable to load",
   "not found",
   "something went wrong"]

/-- `is_error_message` inside `extract_conversation`: the lower-cased content
contains one of the error-banner phrases. -/
def is_error_message (msg : Message) : Bool :=
  error_patterns.any (fun pat => strContains pat (pyLower msg.content))

/-- `ContentExtractor._validate_conversation_structure`: non-empty, and the
role set contains both `"user"` and `"assistant"`. -/
def validate_conversation_structure (messages : List Message) : Bool :=
  if messages.isEmpty then false
  else
    let roles := messages.map Message.role
    roles.contains "user" && roles.contains "assistant"

/-- The acceptance test of the strategy loop in
`_extract_with_multiple_strategies`: the strategy did not raise, its result is
truthy (non-empty), and the result passes the structural validation. -/
def strategy_accepts : Option (List Message) → Bool
  | none => false
  | some conversation => !conversation.isEmpty && validate_conversation_structure conversation

/-- `ContentExtractor._extract_with_multiple_strategies`: try the strategy
outcomes in order, return the first accepted result, else `[]`. -/
def extract_with_multiple_strategies : List (Option (List Message)) → List Message
  | [] => []
  | o :: rest =>
    if strategy_accepts o then o.getD [] else extract_with_multiple_strategies rest

/-- The pure tail of `ContentExtractor.extract_conversation` after the page
has been rendered: run the strategies, filter out error banners, fail with
`none` when nothing is left, otherwise build the transcript dict with its
metadata counts. -/
def extract_conversation (url : String) (outcomes : List (Option (List Message))) :
    Option Transcript :=
  let messages := extract_with_multiple_strategies outcomes
  let filtered_messages := messages.filter (fun m => !is_error_message m)
  if filtered_messages.isEmpty then none
  else
    let user_count := filtered_messages.countP (fun m => m.role == "user")
    let assistant_count := filtered_messages.countP (fun m => m.role == "assistant")
    some { url := url
           messages := filtered_messages
           metadata := { total_messages := filtered_messages.length
                         user_messages := user_count
                         assistant_messages := assistant_count
                         extraction_method := "playwright_multi_strategy" } }

/-! ### RoleClassifier (`ContentExtractor._determine_role_improved`) -/

/-- `user_patterns` of `_guess_role_from_content`. -/
def user_patterns : List String :=
  ["please", "can you", "how do i", "what is", "help me",
   "i want", "i need", "could you", "would you"]

/-- `assistant_patterns` of `_guess_role_from_content`. -/
def assistant_patterns : List String :=
  ["i can help", "here is", "here are", "to answer",
   "certainly", "of course", "i understand", "let me"]

/-- `ContentExtractor._guess_role_from_content`: keyword scoring with a
positional-parity tie-break (even position guesses `"user"`). -/
def guess_role_from_content (content : String) (position : Nat) : String :=
  let content_lower := pyLower content
  let user_score := (user_patterns.filter (fun p => strContains p content_lower)).length
  let assistant_score := (assistant_patterns.filter (fun p => strContains p content_lower)).length
  if user_score > assistant_score then "user"
  else if assistant_score > user_score then "assistant"
  else if position % 2 = 0 then "user" else "assistant"

/-- A message container as `_determine_role_improved` observes it: whether
any user-avatar selector matches, whether any assistant-avatar selector
matches, the `class` and `data-testid` attributes (absent attributes are
`none`, which Python's `or ''` turns into the empty string), and the
container's inner text. -/
structure Container where
  has_user_avatar : Bool
  has_assistant_avatar : Bool
  class_attr : Option String
  testid_attr : Option String
  inner_text : String
deriving DecidableEq

/-- The class/test-id indicator words mapped to `"user"`. -/
def user_indicators : List String := ["user", "human"]

/-- The class/test-id indicator words mapped to `"assistant"`. -/
def assistant_indicators : List String := ["assistant", "ai", "chatgpt", "bot"]

/-- `ContentExtractor._determine_role_improved` on the non-raising path:
avatar markers, then class/test-id indicators, then content-keyword scoring
at position 0 when the inner text is truthy, and `"unknown"` only after all
of those. -/
def determine_role_improved (container : Container) : String :=
  if container.has_user_avatar then "user"
  else if container.has_assistant_avatar then "assistant"
  else
    let container_html := container.class_attr.getD "" ++ container.testid_attr.getD ""
    if user_indicators.any (fun ind => strContains ind (pyLower container_html)) then "user"
    else if assistant_indicators.any (fun ind => strContains ind (pyLower container_html)) then
      "assistant"
    else if container.inner_text ≠ "" then guess_role_from_content container.inner_text 0
    else "unknown"

/-! ### Link validation (`app.improved_validate_link`)

The single `session.get` is modelled by a `NetOutcome` input; the function
returns its boolean verdict together with the number of network calls it
performed, so that "no network call happens" is a provable statement. -/

/-- The response the transport would deliver: final URL after redirects,
HTTP status, and the body (`none` when reading the body raises). -/
structure NetResponse where
  final_url : String
  status : Nat
  body : Option String
deriving DecidableEq

/-- Outcome of `session.get`: a response, or a raised
timeout/client-error/unexpected exception. -/
inductive NetOutcome where
  | response (r : NetResponse)
  | failure
deriving DecidableEq

/-- The fixed locator prefix `https://chatgpt.com/share/`. -/
def share_url_head : String := "https://chatgpt.com/share/"

/-- `error_indicators` of `improved_validate_link`. -/
def link_error_indicators : List String :=
  ["conversation not found",
   "this conversation is private",
   "unable to load",
   "something went wrong",
   "conversation has been deleted"]

/-- `positive_indicators` of `improved_validate_link`. -/
def link_positive_indicators : List String :=
  ["chatgpt", "conversation", "message", "user:", "assistant:"]

/-- `app.improved_validate_link`, instrumented with a network-call counter:
format checks first (no call), then the probe outcome is classified exactly
as the source does. -/
def improved_validate_link (url : String) (net : NetOutcome) : Bool × Nat :=
  if !(pyStartsWith url share_url_head) then (false, 0)
  else
    let uuid_part := url_last_segment url
    if uuid_part.length < 20 then (false, 0)
    else
      match net with
      | .failure => (false, 1)
      | .response r =>
        if strContains "auth.openai.com" r.final_url
            || strContains "login" (pyLower r.final_url) then (false, 1)
        else if r.status = 404 then (false, 1)
        else if r.status = 403 then (false, 1)
        else if r.status ≥ 400 then (false, 1)
        else
          match r.body with
          | none => (false, 1)
          | some content =>
            let content_lower := pyLower content
            if link_error_indicators.any (fun ind => strContains ind content_lower) then
              (false, 1)
            else
              let positive_count :=
                (link_positive_indicators.filter (fun ind => strContains ind content_lower)).length
              if positive_count < 2 then (false, 1) else (true, 1)

/-! ### Per-link pipeline (`app.process_single_link`)

The pipeline's effectful collaborators are modelled as inputs: the validation
verdict, the extraction result, whether writing the transcript JSON succeeds,
and the insight-generation outcome (`none` covers an exception, a falsy
insight, and a failed insight write — all of which the source handles by
falling through to the transcript-only return). -/

/-- The environment one `process_single_link` run executes in. -/
structure PipelineEnv where
  url : String
  validate_result : Bool
  extraction : Option Transcript
  persist_ok : Bool
  insight_result : Option Insight
  now : String

/-- The result dict `process_single_link` returns on success;
`insights_file` is present exactly when the insight was produced and saved. -/
structure PipelineResult where
  url : String
  conversation_file : String
  insights_file : Option String
  message_count : Nat
  title : String
deriving DecidableEq

/-- The filename sanitisation of `process_single_link`: keep
alphanumeric/space/hyphen/underscore characters, strip trailing whitespace,
truncate to 50 characters, defaulting to `"Conversation"` when empty. -/
def sanitize_title (title : String) : String :=
  let kept := (title.toList.filter
    (fun c => c.isAlphanum || c == ' ' || c == '-' || c == '_'))
  let trimmed := (kept.reverse.dropWhile Char.isWhitespace).reverse
  if trimmed.isEmpty then "Conversation" else String.mk (trimmed.take 50)

/-- `app.process_single_link`.  Returns the pipeline result (or `none` for a
discarded run) together with a flag recording whether insight generation was
attempted. -/
def process_single_link (env : PipelineEnv) : Option PipelineResult × Bool :=
  if !env.validate_result then (none, false)
  else
    match env.extraction with
    | none => (none, false)
    | some conversation_data =>
      let messages := conversation_data.messages
      if messages.length < 1 then (none, false)
      else
        let title := generate_title messages env.now
        let uuid_str := url_last_segment env.url
        let filename := sanitize_title title ++ "_" ++ uuid_str ++ ".json"
        if !env.persist_ok then (none, false)
        else
          let conversation_file := "valid_jsons/" ++ filename
          if 2 ≤ messages.length then
            match env.insight_result with
            | some _ =>
              (some { url := env.url
                      conversation_file := conversation_file
                      insights_file := some ("insights_json/" ++ filename)
                      message_count := messages.length
                      title := title }, true)
            | none =>
              (some { url := env.url
                      conversation_file := conversation_file
                      insights_file := none
                      message_count := messages.length
                      title := title }, true)
          else
            (some { url := env.url
                    conversation_file := conversation_file
                    insights_file := none
                    message_count := messages.length
                    title := title }, false)

/-! ### Scheduler (`app.background_worker`)

One loop iteration is a step on the `consecutive_failures` counter, driven by
the observable outcome of the batch: how many links were generated, how many
pipeline runs succeeded, or an unexpected batch-level exception.  The step
also reports whether the extended 30-second cooldown sleep fired in that
iteration. -/

/-- Observable outcome of one batch iteration. -/
inductive BatchOutcome where
  | batch (num_links successful : Nat)
  | error
deriving DecidableEq

/-- One iteration of the `background_worker` loop body acting on the
`consecutive_failures` counter; the boolean is whether the extended cooldown
sleep (`asyncio.sleep(30)`) fired. -/
def worker_step (consecutive_failures : Nat) : BatchOutcome → Nat × Bool
  | .batch num_links successful =>
    if 0 < num_links then
      if successful = 0 then
        let cf := consecutive_failures + 1
        (cf, decide (3 ≤ cf))
      else (0, false)
    else (consecutive_failures, false)
  | .error => (consecutive_failures + 1, false)

/-- A run of consecutive `background_worker` iterations: final counter value
and, per iteration, whether the extended cooldown fired. -/
def worker_run (consecutive_failures : Nat) : List BatchOutcome → Nat × List Bool
  | [] => (consecutive_failures, [])
  | o :: rest =>
    let step := worker_step consecutive_failures o
    let tail := worker_run step.1 rest
    (tail.1, step.2 :: tail.2)

/-! ### Claims -/

/-- The scenario-A transcript of claim C1. -/
def scenarioA : List Message :=
  [Message.mk "user" "my name is Sam, how do I reset a password" "modern_selectors",
   Message.mk "assistant" "Here is how: ..." "modern_selectors"]

/-- C1 (counterexample): on the scenario-A transcript, `generate_title` does
not return `"sam_my_name_is_sam_how"`: the token `"Sam,"` carries a comma, so
it fails the `isalnum` filter (which tests the raw token, before the
punctuation strip) and the summary fragment drops it. -/
theorem c1_counterexample :
    generate_title scenarioA "20240101_000000" ≠ "sam_my_name_is_sam_how" := by decide

/-- C1 (amended): on the scenario-A transcript, `generate_title` extracts the
name `"sam"`, builds the summary fragment from the alnum tokens among the
first five (`my`, `name`, `is`, `how` — `"Sam,"` is dropped by the `isalnum`
filter because of its comma), and returns `"sam_my_name_is_how"`, which is
within the 50-character bound. -/
theorem c1_title_value :
    generate_title scenarioA "20240101_000000" = "sam_my_name_is_how" ∧
    (generate_title scenarioA "20240101_000000").length ≤ 50 := by decide

/-- The claim-C2 scenario input: the positive word `"good"` occurs three
times, the distinct negative words `"problem"` and `"issue"` once each. -/
def c2_input : List Message :=
  [Message.mk "user" "good good good problem issue" "fallback_pattern"]

/-- C2 (counterexample): on an input where one positive word occurs three
times and two distinct negative words occur once each, the fallback sentiment
is `"negative"`, not the `"positive"` an occurrence-count majority would
give: each listed word is counted at most once, however often it occurs. -/
theorem c2_counterexample :
    countOcc "good".toList "good good good problem issue".toList = 3 ∧
    countOcc "problem".toList "good good good problem issue".toList = 1 ∧
    countOcc "issue".toList "good good good problem issue".toList = 1 ∧
    (generate_fallback_insights c2_input "2024").sentiment = "negative" ∧
    (generate_fallback_insights c2_input "2024").sentiment ≠ "positive" := by decide

/-- C2 (amended): for every message list, the fallback insight's sentiment is
determined by how many distinct words of the fixed positive list occur (as
substrings, each counted at most once regardless of its number of
occurrences) in the lower-cased space-joined concatenation of all user and
assistant message text, versus distinct negative-list words; the majority
wins and a tie yields `"neutral"`. -/
theorem c2_fallback_sentiment (conversation_data : List Message) (now : String) :
    (generate_fallback_insights conversation_data now).sentiment =
      fallback_sentiment_characterisation conversation_data := by
  simp only [generate_fallback_insights, fallback_sentiment_characterisation,
    distinct_words_present, List.countP_eq_length_filter]

/-- The claim-C3 style container: no avatar markers, no class/test-id
attributes, and non-empty text with no role keywords. -/
def c3_container : Container := Container.mk false false none none "The sky was blue."

/-- C3 (counterexample): on a container with no avatar markers, no
role-indicating attributes, and non-empty keyword-free text, the classifier
returns `"user"` — a forced guess from the position-0 parity tie-break — not
`"unknown"`. -/
theorem c3_counterexample :
    determine_role_improved c3_container = "user" ∧
    determine_role_improved c3_container ≠ "unknown" := by decide

/-- C3 (amended): when no avatar marker and no class/test-id indicator fires
and the content-keyword scores are both zero, the classifier returns
`"unknown"` only when the container's text is empty; with non-empty
keyword-free text the content cascade still runs and its position-0 parity
tie-break forces `"user"`. -/
theorem c3_unknown_only_on_empty_text (c : Container)
    (h1 : c.has_user_avatar = false)
    (h2 : c.has_assistant_avatar = false)
    (h3 : user_indicators.any
      (fun ind => strContains ind (pyLower (c.class_attr.getD "" ++ c.testid_attr.getD ""))) =
      false)
    (h4 : assistant_indicators.any
      (fun ind => strContains ind (pyLower (c.class_attr.getD "" ++ c.testid_attr.getD ""))) =
      false)
    (h6 : (user_patterns.filter (fun p => strContains p (pyLower c.inner_text))).length = 0)
    (h7 : (assistant_patterns.filter (fun p => strContains p (pyLower c.inner_text))).length = 0) :
    (c.inner_text ≠ "" → determine_role_improved c = "user") ∧
    (c.inner_text = "" → determine_role_improved c = "unknown") := by
  constructor
  · intro h5
    simp [determine_role_improved, h1, h2, h3, h4, h5, guess_role_from_content, h6, h7]
  · intro h5
    simp [determine_role_improved, h1, h2, h3, h4, h5]

/-- C3 witness: the amended theorem applied to a concrete container with
non-empty keyword-free text. -/
theorem c3_witness :
    ("The sky was blue." : String) ≠ "" ∧ determine_role_improved c3_container = "user" :=
  ⟨by decide,
   (c3_unknown_only_on_empty_text c3_container rfl rfl (by decide) (by decide)
     (by decide) (by decide)).1 (by decide)⟩

/-- C4 (counterexample): starting from a zero counter, four consecutive
zero-success batches fire the extended cooldown on the third AND the fourth
batch — not exactly once per threshold crossing; a batch with successes then
resets the counter to 0, so a following zero-success batch does not fire it. -/
theorem c4_counterexample :
    worker_run 0
      [BatchOutcome.batch 20 0, BatchOutcome.batch 20 0, BatchOutcome.batch 20 0,
       BatchOutcome.batch 20 0, BatchOutcome.batch 20 5, BatchOutcome.batch 20 0] =
      (1, [false, false, true, true, false, false]) := by decide

/-- C4 (amended): in every batch iteration that generated links, a
zero-success batch increments the consecutive-failure counter and fires the
extended cooldown sleep exactly when the incremented counter has reached the
threshold of 3 — i.e. on the third and every subsequent consecutive
zero-success batch, not only once per crossing — while a batch with at least
one success resets the counter to 0 and never fires the cooldown. -/
theorem c4_counter_and_cooldown (cf num_links successful : Nat) (hl : 0 < num_links) :
    (successful = 0 →
      worker_step cf (BatchOutcome.batch num_links successful) =
        (cf + 1, decide (3 ≤ cf + 1))) ∧
    (successful ≠ 0 →
      worker_step cf (BatchOutcome.batch num_links successful) = (0, false)) := by
  constructor <;> intro h <;> simp [worker_step, hl, h]

/-- C4 witness: the amended theorem applied at concrete counter values — at
counter 2 a zero-success batch moves to 3 and fires the cooldown, and a
successful batch resets counter 5 to 0 without a cooldown. -/
theorem c4_witness :
    0 < 20 ∧
    worker_step 2 (BatchOutcome.batch 20 0) = (3, decide (3 ≤ 3)) ∧
    worker_step 5 (BatchOutcome.batch 20 7) = (0, false) :=
  ⟨by decide, (c4_counter_and_cooldown 2 20 0 (by decide)).1 rfl,
   (c4_counter_and_cooldown 5 20 7 (by decide)).2 (by decide)⟩

/-- C5: the strategy chain returns the first structurally valid result: when
strategy 1's outcome is not accepted (it raised, returned an empty list, or
returned a list without both a user-role and an assistant-role message) and
strategy 2's outcome is accepted, extraction returns strategy 2's message
list, never a later strategy's. -/
theorem c5_second_strategy_wins (o1 o2 o3 o4 o5 : Option (List Message))
    (conv2 : List Message)
    (h1 : strategy_accepts o1 = false)
    (h2 : o2 = some conv2)
    (h3 : strategy_accepts o2 = true) :
    extract_with_multiple_strategies [o1, o2, o3, o4, o5] = conv2 := by
  subst h2
  simp [extract_with_multiple_strategies, h1, h3]

/-- C5 witness: with strategy 1 returning an empty list and strategy 2 a
valid two-role conversation, extraction returns strategy 2's result. -/
theorem c5_witness :
    extract_with_multiple_strategies
      [some [],
       some [Message.mk "user" "hello can you help me with this" "alternative_selectors",
             Message.mk "assistant" "Sure, here is the answer you need" "alternative_selectors"],
       none, none, none] =
      [Message.mk "user" "hello can you help me with this" "alternative_selectors",
       Message.mk "assistant" "Sure, here is the answer you need" "alternative_selectors"] :=
  c5_second_strategy_wins _ _ _ _ _ _ (by decide) rfl (by decide)

/-- C6: after a strategy's output is chosen, every message whose lower-cased
content contains an error-banner phrase is filtered out — no returned
transcript contains one — and when the filter removes every message the
extraction returns `none` (an absent result, not an exception, the embedding
being total). -/
theorem c6_error_banner_filtering (url : String) (outcomes : List (Option (List Message))) :
    (∀ t, extract_conversation url outcomes = some t →
      ∀ m ∈ t.messages, is_error_message m = false) ∧
    ((∀ m ∈ extract_with_multiple_strategies outcomes, is_error_message m = true) →
      extract_conversation url outcomes = none) := by
  constructor
  · intro t ht m hm
    simp only [extract_conversation] at ht
    split at ht
    · simp at ht
    · injection ht with ht
      subst ht
      have := (List.mem_filter.mp hm).2
      simpa using this
  · intro hall
    have hnil : (extract_with_multiple_strategies outcomes).filter
        (fun m => !is_error_message m) = [] := by
      rw [List.filter_eq_nil_iff]
      intro a ha
      simp [hall a ha]
    simp only [extract_conversation, hnil]
    rfl

/-- C6 witness: a document whose only strategy output consists solely of
error banners (one per role, so the raw output is structurally valid) yields
an absent extraction result. -/
theorem c6_witness :
    extract_conversation "https://chatgpt.com/share/x"
      [some [Message.mk "user" "Unable to load this conversation for me" "modern_selectors",
             Message.mk "assistant" "Something went wrong while answering" "modern_selectors"],
       none, none, none, none] = none :=
  (c6_error_banner_filtering _ _).2 (by decide)

/-- C9: every transcript the extraction returns has metadata consistent with
its stored (post-filter) message list: `total_messages` is its length,
`user_messages` counts the `"user"`-role messages, and `assistant_messages`
counts the `"assistant"`-role messages. -/
theorem c9_metadata_consistent (url : String) (outcomes : List (Option (List Message)))
    (t : Transcript) (ht : extract_conversation url outcomes = some t) :
    t.metadata.total_messages = t.messages.length ∧
    t.metadata.user_messages = t.messages.countP (fun m => m.role == "user") ∧
    t.metadata.assistant_messages = t.messages.countP (fun m => m.role == "assistant") := by
  simp only [extract_conversation] at ht
  split at ht
  · simp at ht
  · injection ht with ht
    subst ht
    exact ⟨rfl, rfl, rfl⟩

/-- The two-message strategy output used by the C9 witness. -/
def c9_raw : List Message :=
  [Message.mk "user" "Hello, can you explain stacks to me" "modern_selectors",
   Message.mk "assistant" "Certainly, here is a simple explanation" "modern_selectors"]

/-- The transcript extraction produces on `c9_raw`. -/
def c9_transcript : Transcript :=
  Transcript.mk "https://chatgpt.com/share/demo" c9_raw
    (TranscriptMetadata.mk 2 1 1 "playwright_multi_strategy")

/-- C9 witness: the consistency theorem applied to a concrete extraction. -/
theorem c9_witness :
    c9_transcript.metadata.total_messages = c9_transcript.messages.length ∧
    c9_transcript.metadata.user_messages =
      c9_transcript.messages.countP (fun m => m.role == "user") ∧
    c9_transcript.metadata.assistant_messages =
      c9_transcript.messages.countP (fun m => m.role == "assistant") :=
  c9_metadata_consistent "https://chatgpt.com/share/demo"
    [some c9_raw, none, none, none, none] c9_transcript (by decide)

/-- C7: a locator that fails the structural format check — wrong fixed
prefix, or a final path segment shorter than 20 characters — is rejected
with zero network calls: the transport is never invoked, whatever it would
have answered. -/
theorem c7_invalid_format_no_network (url : String) (net : NetOutcome)
    (h : pyStartsWith url share_url_head = false ∨ (url_last_segment url).length < 20) :
    improved_validate_link url net = (false, 0) := by
  unfold improved_validate_link
  rcases h with h | h
  · simp [h]
  · cases hs : pyStartsWith url share_url_head
    · simp [hs]
    · simp [hs, h]

/-- C7 witness: a short-suffix locator is rejected without a network call
even when the transport stands ready with a fully positive response. -/
theorem c7_witness :
    (url_last_segment "https://chatgpt.com/share/short").length < 20 ∧
    improved_validate_link "https://chatgpt.com/share/short"
      (NetOutcome.response (NetResponse.mk "https://chatgpt.com/share/short" 200
        (some "chatgpt conversation message user: assistant: hi"))) = (false, 0) :=
  ⟨by decide, c7_invalid_format_no_network _ _ (Or.inr (by decide))⟩

/-- C8: in every pipeline run that validates, extracts a non-empty
transcript, and persists it, insight generation is attempted exactly when
the transcript has at least 2 messages; the run always ends with a returned
(non-discarded) result, and that result carries no insight artifact whenever
insight generation failed or the transcript had fewer than 2 messages —
insight failure never discards the run. -/
theorem c8_insight_best_effort (env : PipelineEnv) (conv : Transcript)
    (hv : env.validate_result = true)
    (he : env.extraction = some conv)
    (hm : 1 ≤ conv.messages.length)
    (hp : env.persist_ok = true) :
    ((process_single_link env).2 = true ↔ 2 ≤ conv.messages.length) ∧
    (∃ r, (process_single_link env).1 = some r) ∧
    (∀ r, (process_single_link env).1 = some r →
      (env.insight_result = none → r.insights_file = none) ∧
      (conv.messages.length < 2 → r.insights_file = none)) := by
  have hm1 : ¬(conv.messages.length < 1) := by omega
  simp only [process_single_link, hv, he, hp, Bool.not_true, Bool.false_eq_true,
    if_false, hm1, if_neg]
  by_cases h2 : 2 ≤ conv.messages.length
  · cases hi : env.insight_result with
    | none =>
      simp only [h2, if_pos]
      refine ⟨by simp [h2], ⟨_, rfl⟩, ?_⟩
      intro r hr
      injection hr with hr
      subst hr
      exact ⟨fun _ => rfl, fun hlt => absurd h2 (by omega)⟩
    | some ins =>
      simp only [h2, if_pos]
      refine ⟨by simp [h2], ⟨_, rfl⟩, ?_⟩
      intro r hr
      injection hr with hr
      subst hr
      exact ⟨fun hnone => by simp at hnone, fun hlt => absurd h2 (by omega)⟩
  · simp only [if_neg h2]
    refine ⟨by simp [h2], ⟨_, rfl⟩, ?_⟩
    intro r hr
    injection hr with hr
    subst hr
    exact ⟨fun _ => rfl, fun _ => rfl⟩

/-- The transcript used by the C8 witness: two messages, one per role. -/
def c8_transcript : Transcript :=
  Transcript.mk "https://chatgpt.com/share/aaaabbbbccccddddeeee1234"
    [Message.mk "user" "Hi, how do I reset my router at home" "modern_selectors",
     Message.mk "assistant" "Here is how you do it step by step" "modern_selectors"]
    (TranscriptMetadata.mk 2 1 1 "playwright_multi_strategy")

/-- The C8 witness environment: validation and persistence succeed but
insight generation fails (`none`). -/
def c8_env : PipelineEnv :=
  PipelineEnv.mk "https://chatgpt.com/share/aaaabbbbccccddddeeee1234" true
    (some c8_transcript) true none "20240101_000000"

/-- C8 witness: the theorem applied to a concrete run whose insight
generation fails — insights were attempted, and the run still returns a
transcript-only result. -/
theorem c8_witness :
    ((process_single_link c8_env).2 = true ↔ 2 ≤ c8_transcript.messages.length) ∧
    (∃ r, (process_single_link c8_env).1 = some r) ∧
    (∀ r, (process_single_link c8_env).1 = some r →
      (c8_env.insight_result = none → r.insights_file = none) ∧
      (c8_transcript.messages.length < 2 → r.insights_file = none)) :=
  c8_insight_best_effort c8_env c8_transcript rfl rfl (by decide) rfl

/-- The raw strategy output of the C10 scenario: the user-role message is an
error banner (its content contains "something went wrong"), the
assistant-role message is not. -/
def c10_raw : List Message :=
  [Message.mk "user" "Something went wrong when I installed the new build" "modern_selectors",
   Message.mk "assistant" "Here is how you can fix the build quickly" "modern_selectors"]

/-- The transcript extraction produces on `c10_raw`: only the assistant-role
message survives the error-banner filter. -/
def c10_transcript : Transcript :=
  Transcript.mk "https://chatgpt.com/share/demo2"
    [Message.mk "assistant" "Here is how you can fix the build quickly" "modern_selectors"]
    (TranscriptMetadata.mk 1 0 1 "playwright_multi_strategy")

/-- The pipeline environment of the C10 scenario, fed the imbalanced
transcript. -/
def c10_env : PipelineEnv :=
  PipelineEnv.mk "https://chatgpt.com/share/demo2" true (some c10_transcript) true none
    "20240101_000000"

/-- C10: there is a rendered document on which extraction returns a
non-empty transcript with no user-role message: the raw strategy output
passes the structural-validity check (both roles present) before the
error-banner filter, the filter then removes the only user-role message, and
the imbalanced one-message transcript is returned and still processed by the
pipeline rather than discarded. -/
theorem c10_imbalanced_transcript_returned :
    validate_conversation_structure c10_raw = true ∧
    extract_conversation "https://chatgpt.com/share/demo2"
      [some c10_raw, none, none, none, none] = some c10_transcript ∧
    c10_transcript.messages ≠ [] ∧
    c10_transcript.metadata.user_messages = 0 ∧
    c10_transcript.messages.countP (fun m => m.role == "user") = 0 ∧
    (process_single_link c10_env).1.isSome = true := by
  refine ⟨by decide, by decide, by decide, rfl, by decide, by decide⟩

end Raven
